import Mathlib

/-!
Verification of the EV Charging Map backend (main.py, schemas.py): the
station data model, the query-filter builder of list_stations, the naive
geo bounding-box search of stations_near, the get-by-id handler, the
create handler and the demo-data seeding, embedded shallowly in Lean.
Python floats are modelled as rationals where the code only compares them
and as reals where the code takes a cosine; the document store is a list
of station records, and the store evaluation of the filters the code
builds follows the documented semantics of the store query operators.
-/

namespace EVChargingMap

/-- A sublist-of-characters test: `hasSublist n h` is true when the
character list `n` occurs contiguously inside `h`. -/
def hasSublist (needle : List Char) : List Char → Bool
  | [] => needle.isEmpty
  | c :: cs => needle.isPrefixOf (c :: cs) || hasSublist needle cs

/-- Case-insensitive substring test: the store evaluates the
case-insensitive regex clauses the code builds (plain pattern text with
option i) as a case-insensitive substring search. -/
def ciContains (needle hay : String) : Bool :=
  hasSublist (needle.data.map Char.toLower) (hay.data.map Char.toLower)

/-- The Station record of schemas.py: required name and coordinates,
optional descriptive fields with the same defaults as the schema, a list
of connector names and a list of amenities. Coordinates are reals (the
near search takes a cosine of the latitude); power_kw is a rational. -/
structure Station where
  name : String
  network : Option String := none
  latitude : ℝ
  longitude : ℝ
  address : Option String := none
  city : Option String := none
  state : Option String := none
  country : Option String := some "IN"
  postal_code : Option String := none
  connectors : List String := []
  power_kw : Option ℚ := none
  price : Option String := none
  available : Option Bool := some true
  amenities : List String := []
  phone : Option String := none
  hours : Option String := none

/-- An HTTP error as the handlers raise it: a status code and a detail
message (HTTPException in main.py). -/
structure HErr where
  status : Nat
  detail : String

/-- Python truthiness of an Optional[str]: truthy when present and
non-empty (the `if connector:` / `if city:` / `if q:` tests). -/
def strTruthy : Option String → Bool
  | none => false
  | some s => !s.isEmpty

/-- The filter object list_stations builds (main.py lines 95 to 106): at
most one clause per parameter, absent clauses are `none`. -/
structure StationFilter where
  connectors : Option String := none
  power_gte : Option ℚ := none
  city_regex : Option String := none
  or_name_address : Option String := none

/-- The filter construction of list_stations: `if connector:` and
`if city:` and `if q:` test Python truthiness, while min_power is tested
with `is not None` and so contributes its clause even at 0. -/
def buildFilter (connector : Option String) (min_power : Option ℚ)
    (city q : Option String) : StationFilter :=
  { connectors := if strTruthy connector then connector else none
    power_gte := min_power
    city_regex := if strTruthy city then city else none
    or_name_address := if strTruthy q then q else none }

/-- Store evaluation of the connectors clause: equality of a scalar
against an array field holds when the array contains the value. -/
def connMatches : Option String → Station → Bool
  | none, _ => true
  | some c, d => d.connectors.contains c

/-- Store evaluation of the power clause: a numeric gte comparison
matches only records whose power_kw is a number at least the bound
(a missing or null field does not satisfy a numeric comparison). -/
def powerMatches : Option ℚ → Station → Bool
  | none, _ => true
  | some m, d =>
    match d.power_kw with
    | none => false
    | some p => decide (m ≤ p)

/-- Store evaluation of the city clause: case-insensitive substring
match against the city field; a record without a city never matches. -/
def cityMatches : Option String → Station → Bool
  | none, _ => true
  | some c, d =>
    match d.city with
    | none => false
    | some ct => ciContains c ct

/-- Store evaluation of the or-group the q parameter builds: the record
matches when its name, or its address when present, contains the text
case-insensitively. -/
def qMatches : Option String → Station → Bool
  | none, _ => true
  | some s, d =>
    ciContains s d.name ||
      (match d.address with
       | none => false
       | some a => ciContains s a)

/-- Store evaluation of the whole filter: the clauses of one filter
object are implicitly conjoined. -/
def matchesFilter (f : StationFilter) (d : Station) : Bool :=
  connMatches f.connectors d && powerMatches f.power_gte d &&
    cityMatches f.city_regex d && qMatches f.or_name_address d

/-- The list_stations handler (main.py lines 84 to 109): a 500 error
when the store handle is absent, otherwise the matching records of the
station collection truncated to the limit. -/
def list_stations (dbConfigured : Bool) (store : List Station)
    (connector : Option String) (min_power : Option ℚ)
    (city q : Option String) (limit : Nat) : Except HErr (List Station) :=
  if dbConfigured then
    .ok ((store.filter fun d =>
      matchesFilter (buildFilter connector min_power city q) d).take limit)
  else
    .error { status := 500, detail := "Database not configured" }

/-- The default of the limit query parameter. -/
def limitDefault : Nat := 200

/-- The hard ceiling of the limit query parameter. -/
def limitCeiling : Nat := 1000

/-- The boundary validation of the limit parameter, Query with default
200, ge 1, le 1000: an absent parameter becomes 200, a supplied value is
accepted exactly when it lies in 1..1000 and rejected otherwise. -/
def validateLimit : Option Nat → Option Nat
  | none => some limitDefault
  | some n => if 1 ≤ n ∧ n ≤ limitCeiling then some n else none

/-- The latitude half-height of the near-search box (main.py line 123):
one degree of latitude is about 111 km. -/
noncomputable def lat_delta (radius_km : ℝ) : ℝ := radius_km / 111.0

/-- The denominator of the longitude half-width (main.py line 124):
111 times the floored absolute cosine of the latitude in radians. -/
noncomputable def lngDenom (lat : ℝ) : ℝ :=
  111.0 * max 0.01 |Real.cos (lat * Real.pi / 180)|

/-- The longitude half-width of the near-search box (main.py line 124). -/
noncomputable def lng_delta (lat radius_km : ℝ) : ℝ :=
  radius_km / lngDenom lat

/-- The rectangle filter stations_near builds (main.py lines 126 to
129): independent closed bounds on the raw latitude and longitude. -/
structure GeoFilter where
  latMin : ℝ
  latMax : ℝ
  lngMin : ℝ
  lngMax : ℝ

/-- The bounding-box construction of stations_near. -/
noncomputable def nearFilter (lat lng radius_km : ℝ) : GeoFilter :=
  { latMin := lat - lat_delta radius_km
    latMax := lat + lat_delta radius_km
    lngMin := lng - lng_delta lat radius_km
    lngMax := lng + lng_delta lat radius_km }

/-- Store evaluation of the rectangle filter: both raw coordinates lie
inside their closed intervals. -/
def matchesGeo (f : GeoFilter) (d : Station) : Prop :=
  f.latMin ≤ d.latitude ∧ d.latitude ≤ f.latMax ∧
    f.lngMin ≤ d.longitude ∧ d.longitude ≤ f.lngMax

/-- The stations_near handler up to the store call (main.py lines 112 to
131): a 500 error when the store handle is absent, otherwise the
rectangle filter it sends to the store. -/
noncomputable def stations_near (dbConfigured : Bool)
    (lat lng radius_km : ℝ) : Except HErr GeoFilter :=
  if dbConfigured then .ok (nearFilter lat lng radius_km)
  else .error { status := 500, detail := "Database not configured" }

/-- A hexadecimal digit. -/
def isHexChar (c : Char) : Bool :=
  c.isDigit || (decide ('a' ≤ c) && decide (c ≤ 'f')) ||
    (decide ('A' ≤ c) && decide (c ≤ 'F'))

/-- Well-formedness of a store identifier: the ObjectId constructor
accepts exactly a 24-character hexadecimal string and raises on anything
else. -/
def isValidObjectId (s : String) : Bool :=
  decide (s.length = 24) && s.data.all isHexChar

/-- The find-one store operation keyed on the identifier. -/
def find_one (store : List (String × Station)) (oid : String) :
    Option Station :=
  (store.find? fun kv => kv.1 == oid).map fun kv => kv.2

/-- The get_station handler (main.py lines 140 to 148). The single try
block wraps both the ObjectId construction and the find_one call, and
its except clause raises 400 with detail Invalid station id, so a store
failure during the lookup (modelled by the storeFails flag) is reported
as 400 exactly like a malformed id; a falsy result outside the try
raises 404. -/
def get_station (dbConfigured storeFails : Bool)
    (store : List (String × Station)) (station_id : String) :
    Except HErr Station :=
  if !dbConfigured then
    .error { status := 500, detail := "Database not configured" }
  else if !isValidObjectId station_id then
    .error { status := 400, detail := "Invalid station id" }
  else if storeFails then
    .error { status := 400, detail := "Invalid station id" }
  else
    match find_one store station_id with
    | none => .error { status := 404, detail := "Station not found" }
    | some d => .ok d

/-- Modelled from the spec: the database module imported by main.py
(db, create_document, get_documents) is not among the repository files.
Per the spec error taxonomy, when the store is not wired up at process
start every data-touching endpoint returns a 500-class error with a
fixed message and never attempts a partial operation; create_document
therefore fails that way before touching the store, and otherwise
appends the record to the collection and returns its new identifier. -/
def create_document (dbConfigured : Bool) (store : List Station)
    (s : Station) : Except HErr (List Station × String) :=
  if dbConfigured then .ok (store ++ [s], toString store.length)
  else .error { status := 500, detail := "Database not configured" }

/-- The create_station handler (main.py lines 134 to 137): it delegates
to create_document with no check of its own. -/
def create_station (dbConfigured : Bool) (store : List Station)
    (s : Station) : Except HErr (List Station × String) :=
  create_document dbConfigured store s

/-- The three demo stations of seed_demo_data (main.py lines 161 to
209). -/
def demoStations : List Station :=
  [ { name := "Chargeway - Indiranagar"
      network := some "Chargeway"
      latitude := 12.9716
      longitude := 77.5946
      address := some "100 Feet Rd, Indiranagar"
      city := some "Bengaluru"
      state := some "Karnataka"
      country := some "IN"
      postal_code := some "560038"
      connectors := ["CCS2", "Type2"]
      power_kw := some 60
      price := some "₹20/kWh"
      amenities := ["Restrooms", "Cafe"]
      phone := some "080-123456"
      hours := some "24/7" },
    { name := "Chargeway - BKC"
      network := some "Chargeway"
      latitude := 19.0678
      longitude := 72.8677
      address := some "Bandra Kurla Complex"
      city := some "Mumbai"
      state := some "Maharashtra"
      country := some "IN"
      postal_code := some "400051"
      connectors := ["CCS2"]
      power_kw := some 120
      price := some "₹22/kWh"
      amenities := ["Mall", "Food Court"] },
    { name := "Chargeway - Cyber City"
      network := some "Chargeway"
      latitude := 28.4946
      longitude := 77.0888
      address := some "DLF Cyber City"
      city := some "Gurugram"
      state := some "Haryana"
      country := some "IN"
      postal_code := some "122002"
      connectors := ["CCS2", "CHAdeMO"]
      power_kw := some 50
      price := some "₹18/kWh"
      amenities := ["Parking", "Restrooms"] } ]

/-- The store effect of seed_demo_data: a count of the collection, a
no-op reporting zero insertions when it is positive, otherwise one
insertion per demo record with the loop counting them. -/
def seedOp (store : List Station) : List Station × Nat :=
  if 0 < store.length then (store, 0)
  else (store ++ demoStations, demoStations.length)

/-- The seed_demo_data handler (main.py lines 152 to 215): a 500 error
when the store handle is absent, otherwise the seed effect. -/
def seed_demo_data (dbConfigured : Bool) (store : List Station) :
    Except HErr (List Station × Nat) :=
  if dbConfigured then .ok (seedOp store)
  else .error { status := 500, detail := "Database not configured" }

/-!
### Stations, clause semantics and theorems

Concrete stations instantiate the theorems; the clause predicates state
the semantic reading of each filter clause used by the conjunction
theorem.
-/

/-- A concrete station used to instantiate the theorems at a concrete
input: power 60 kW, CCS2 and Type2 connectors, in Bengaluru. -/
def testStation : Station :=
  { name := "Chargeway - Indiranagar"
    latitude := 0
    longitude := 0
    address := some "100 Feet Rd, Indiranagar"
    city := some "Bengaluru"
    connectors := ["CCS2", "Type2"]
    power_kw := some 60 }

/-- A concrete station at the exact query center used in witnesses. -/
def centerStation : Station :=
  { name := "Center", latitude := 0, longitude := 0 }

/-- A concrete station just across the antimeridian from a query center
at longitude 179.9. -/
def seamStation : Station :=
  { name := "Seam", latitude := 0, longitude := -179.9 }

/-- Semantic reading of the connector clause: membership of the value in
the connectors sequence; no clause when the parameter is absent. -/
def connClause : Option String → Station → Prop
  | none, _ => True
  | some c, d => c ∈ d.connectors

/-- Semantic reading of the power clause: power_kw is present and at
least the bound; no clause when the parameter is absent. -/
def powerClause : Option ℚ → Station → Prop
  | none, _ => True
  | some m, d => ∃ p, d.power_kw = some p ∧ m ≤ p

/-- Semantic reading of the city clause: the city field is present and
contains the text case-insensitively; no clause when absent. -/
def cityClause : Option String → Station → Prop
  | none, _ => True
  | some c, d => ∃ ct, d.city = some ct ∧ ciContains c ct = true

/-- Semantic reading of the q or-group: the name, or the address when
present, contains the text case-insensitively; no clause when absent. -/
def qClause : Option String → Station → Prop
  | none, _ => True
  | some s, d =>
    ciContains s d.name = true ∨ ∃ a, d.address = some a ∧ ciContains s a = true

lemma connMatches_iff (fc : Option String) (d : Station) :
    connMatches fc d = true ↔ connClause fc d := by
  cases fc <;> simp [connMatches, connClause]

lemma powerMatches_iff (fm : Option ℚ) (d : Station) :
    powerMatches fm d = true ↔ powerClause fm d := by
  cases fm with
  | none => simp [powerMatches, powerClause]
  | some m =>
    cases hp : d.power_kw with
    | none => simp [powerMatches, powerClause, hp]
    | some p => simp [powerMatches, powerClause, hp]

lemma cityMatches_iff (fc : Option String) (d : Station) :
    cityMatches fc d = true ↔ cityClause fc d := by
  cases fc with
  | none => simp [cityMatches, cityClause]
  | some c =>
    cases hp : d.city with
    | none => simp [cityMatches, cityClause, hp]
    | some ct => simp [cityMatches, cityClause, hp]

lemma qMatches_iff (fq : Option String) (d : Station) :
    qMatches fq d = true ↔ qClause fq d := by
  cases fq with
  | none => simp [qMatches, qClause]
  | some s =>
    cases hp : d.address with
    | none => simp [qMatches, qClause, hp]
    | some a => simp [qMatches, qClause, hp]

lemma matchesFilter_iff (f : StationFilter) (d : Station) :
    matchesFilter f d = true ↔
      connClause f.connectors d ∧ powerClause f.power_gte d ∧
        cityClause f.city_regex d ∧ qClause f.or_name_address d := by
  simp [matchesFilter, Bool.and_eq_true, connMatches_iff, powerMatches_iff,
    cityMatches_iff, qMatches_iff, and_assoc]

lemma buildFilter_connectors (conn : Option String) (m : Option ℚ)
    (city q : Option String) (hc : conn ≠ some "") :
    (buildFilter conn m city q).connectors = conn := by
  cases conn with
  | none => rfl
  | some c =>
    have h : ¬ c = "" := fun h => hc (by rw [h])
    simp [buildFilter, strTruthy, String.isEmpty_iff, h]

lemma buildFilter_city (conn : Option String) (m : Option ℚ)
    (city q : Option String) (hc : city ≠ some "") :
    (buildFilter conn m city q).city_regex = city := by
  cases city with
  | none => rfl
  | some c =>
    have h : ¬ c = "" := fun h => hc (by rw [h])
    simp [buildFilter, strTruthy, String.isEmpty_iff, h]

lemma buildFilter_q (conn : Option String) (m : Option ℚ)
    (city q : Option String) (hq : q ≠ some "") :
    (buildFilter conn m city q).or_name_address = q := by
  cases q with
  | none => rfl
  | some c =>
    have h : ¬ c = "" := fun h => hq (by rw [h])
    simp [buildFilter, strTruthy, String.isEmpty_iff, h]

lemma buildFilter_power (conn : Option String) (m : Option ℚ)
    (city q : Option String) : (buildFilter conn m city q).power_gte = m :=
  rfl

lemma matches_no_power (conn city q : Option String) (d : Station)
    (pk : Option ℚ) :
    matchesFilter (buildFilter conn none city q) { d with power_kw := pk }
      = matchesFilter (buildFilter conn none city q) d := by
  simp only [matchesFilter, buildFilter]
  cases hc : (if strTruthy conn then conn else none) <;>
    cases hct : (if strTruthy city then city else none) <;>
      cases hq : (if strTruthy q then q else none) <;> rfl

lemma lngDenom_pos (lat : ℝ) : 0 < lngDenom lat := by
  unfold lngDenom
  have h1 : (0.01 : ℝ) ≤ max 0.01 |Real.cos (lat * Real.pi / 180)| :=
    le_max_left _ _
  nlinarith [h1]

/-- Claim C1: in list_stations, every supplied min_power, 0 included,
yields the inclusive bound power_kw at least min_power, and an absent
min_power adds no power clause, so the result is independent of the
power field. -/
theorem min_power_inclusive_bound (conn city q : Option String) (m p' : ℚ)
    (d : Station)
    (h : matchesFilter (buildFilter conn (some m) city q) d = true) :
    (∃ p, d.power_kw = some p ∧ m ≤ p)
  ∧ (buildFilter conn (some m) city q).power_gte = some m
  ∧ (buildFilter conn none city q).power_gte = none
  ∧ matchesFilter (buildFilter conn none city q) { d with power_kw := some p' }
      = matchesFilter (buildFilter conn none city q) { d with power_kw := none } := by
  refine ⟨?_, rfl, rfl, (matches_no_power conn city q d (some p')).trans
    (matches_no_power conn city q d none).symm⟩
  exact ((matchesFilter_iff _ _).1 h).2.1

/-- Claim C1 witness at min_power zero and a 60 kW station. -/
theorem min_power_inclusive_bound_witness :
    (∃ p, testStation.power_kw = some p ∧ (0 : ℚ) ≤ p)
  ∧ (buildFilter none (some 0) none none).power_gte = some 0
  ∧ (buildFilter none none none none).power_gte = none
  ∧ matchesFilter (buildFilter none none none none)
        { testStation with power_kw := some 17 }
      = matchesFilter (buildFilter none none none none)
        { testStation with power_kw := none } :=
  min_power_inclusive_bound none none none 0 17 testStation (by decide)

/-- Claim C2: for any combination of present parameters (a present
string parameter being non-empty, the empty string counting as absent),
the built filter matches a record exactly when the conjunction of the
connector membership clause, the inclusive power bound, the
case-insensitive city substring clause and the single q or-group holds,
and the filter built from no parameters matches every record. -/
theorem filter_conjunction (conn : Option String) (m : Option ℚ)
    (city q : Option String) (d : Station) (hc : conn ≠ some "")
    (hct : city ≠ some "") (hq : q ≠ some "") :
    (matchesFilter (buildFilter conn m city q) d = true ↔
      connClause conn d ∧ powerClause m d ∧ cityClause city d ∧ qClause q d)
  ∧ matchesFilter (buildFilter none none none none) d = true := by
  refine ⟨?_, rfl⟩
  rw [matchesFilter_iff, buildFilter_connectors conn m city q hc,
    buildFilter_city conn m city q hct, buildFilter_q conn m city q hq,
    buildFilter_power conn m city q]

/-- Claim C2 witness at a concrete filter and station. -/
theorem filter_conjunction_witness :
    (matchesFilter
        (buildFilter (some "CCS2") (some 0) (some "bengal") (some "feet"))
        testStation = true ↔
      connClause (some "CCS2") testStation ∧
        powerClause (some 0) testStation ∧
          cityClause (some "bengal") testStation ∧
            qClause (some "feet") testStation)
  ∧ matchesFilter (buildFilter none none none none) testStation = true :=
  filter_conjunction (some "CCS2") (some 0) (some "bengal") (some "feet")
    testStation (by decide) (by decide) (by decide)

/-- Claim C3: the try block of get_station wraps both the ObjectId
construction and the find_one call, so a store failure during the
lookup of a well-formed id is reported as 400 Invalid station id, not
as a 500-class store error; malformed ids give 400 and a well-formed id
with no matching record gives 404. -/
theorem store_failure_reported_as_400 :
    isValidObjectId "0123456789abcdef01234567" = true
  ∧ get_station true true [] "0123456789abcdef01234567"
      = .error { status := 400, detail := "Invalid station id" }
  ∧ get_station true false [] "not-an-objectid"
      = .error { status := 400, detail := "Invalid station id" }
  ∧ get_station true false [] "0123456789abcdef01234567"
      = .error { status := 404, detail := "Station not found" } := by
  refine ⟨by decide, rfl, rfl, rfl⟩

/-- Claim C4: with the store handle absent every data-touching endpoint
returns the 500 error with the fixed message Database not configured
and touches no store state. -/
theorem unconfigured_store_returns_500 (store : List Station)
    (kstore : List (String × Station)) (sf : Bool) (conn : Option String)
    (m : Option ℚ) (city q : Option String) (limit : Nat)
    (lat lng radius_km : ℝ) (sid : String) (s : Station) :
    list_stations false store conn m city q limit
      = .error { status := 500, detail := "Database not configured" }
  ∧ stations_near false lat lng radius_km
      = .error { status := 500, detail := "Database not configured" }
  ∧ get_station false sf kstore sid
      = .error { status := 500, detail := "Database not configured" }
  ∧ create_station false store s
      = .error { status := 500, detail := "Database not configured" }
  ∧ seed_demo_data false store
      = .error { status := 500, detail := "Database not configured" } :=
  ⟨rfl, rfl, rfl, rfl, rfl⟩

/-- Claim C5: for latitudes in the valid range and radii in (0, 1000],
the denominator of the longitude delta is strictly positive thanks to
the max floor, so the division never divides by zero. -/
theorem lng_delta_denominator_positive (lat radius_km : ℝ)
    (h1 : -90 ≤ lat) (h2 : lat ≤ 90) (h3 : 0 < radius_km)
    (h4 : radius_km ≤ 1000) :
    0 < lngDenom lat ∧ lngDenom lat ≠ 0 ∧ 0 < lng_delta lat radius_km := by
  have hp := lngDenom_pos lat
  exact ⟨hp, ne_of_gt hp, div_pos h3 hp⟩

/-- Claim C5 witness at the pole, latitude 90. -/
theorem lng_delta_denominator_positive_witness :
    0 < lngDenom 90 ∧ lngDenom 90 ≠ 0 ∧ 0 < lng_delta 90 25 :=
  lng_delta_denominator_positive 90 25 (by norm_num) (by norm_num)
    (by norm_num) (by norm_num)

/-- Claim C6: for every valid query center and positive radius, the
bounding-box filter matches a station whose coordinates equal the
center exactly. -/
theorem center_always_in_box (lat lng radius_km : ℝ) (st : Station)
    (h1 : -90 ≤ lat) (h2 : lat ≤ 90) (h3 : -180 ≤ lng) (h4 : lng ≤ 180)
    (h5 : 0 < radius_km) (hla : st.latitude = lat)
    (hlo : st.longitude = lng) :
    matchesGeo (nearFilter lat lng radius_km) st := by
  have hld : 0 < lat_delta radius_km := div_pos h5 (by norm_num)
  have hlg : 0 < lng_delta lat radius_km := div_pos h5 (lngDenom_pos lat)
  have g1 : lat - lat_delta radius_km ≤ st.latitude := by rw [hla]; linarith
  have g2 : st.latitude ≤ lat + lat_delta radius_km := by rw [hla]; linarith
  have g3 : lng - lng_delta lat radius_km ≤ st.longitude := by
    rw [hlo]; linarith
  have g4 : st.longitude ≤ lng + lng_delta lat radius_km := by
    rw [hlo]; linarith
  exact ⟨g1, g2, g3, g4⟩

/-- Claim C6 witness: a station at the exact center (0, 0) with radius
25 is matched. -/
theorem center_always_in_box_witness :
    matchesGeo (nearFilter 0 0 25) centerStation :=
  center_always_in_box 0 0 25 centerStation (by norm_num) (by norm_num)
    (by norm_num) (by norm_num) (by norm_num) rfl rfl

/-- Claim C7: seeding is a no-op reporting zero insertions on a
non-empty collection and inserts the fixed demo set reporting its count
on an empty one, so a second seed changes nothing and reports zero. -/
theorem seed_idempotent (store : List Station) :
    seed_demo_data true store = .ok (seedOp store)
  ∧ (seedOp store).1
      = (if 0 < store.length then store else store ++ demoStations)
  ∧ (seedOp store).2
      = (if 0 < store.length then 0 else demoStations.length)
  ∧ (seedOp (seedOp store).1).1.length = (seedOp store).1.length
  ∧ (seedOp (seedOp store).1).2 = 0 := by
  have hd : 0 < demoStations.length := by decide
  cases store with
  | nil => refine ⟨rfl, ?_, ?_, ?_, ?_⟩ <;> simp [seedOp, hd]
  | cons a l => refine ⟨rfl, ?_, ?_, ?_, ?_⟩ <;> simp [seedOp]

/-- Claim C8: the list result never exceeds the supplied limit, the
limit defaults to 200 when absent, and the boundary validation accepts
a supplied limit exactly when it lies in 1..1000. -/
theorem limit_bounds_results (store : List Station) (conn : Option String)
    (m : Option ℚ) (city q : Option String) (limit n : Nat) :
    list_stations true store conn m city q limit
      = .ok ((store.filter fun d =>
          matchesFilter (buildFilter conn m city q) d).take limit)
  ∧ ((store.filter fun d =>
        matchesFilter (buildFilter conn m city q) d).take limit).length
      ≤ limit
  ∧ validateLimit none = some limitDefault
  ∧ limitDefault = 200
  ∧ ((validateLimit (some n)).isSome ↔ 1 ≤ n ∧ n ≤ limitCeiling)
  ∧ limitCeiling = 1000 := by
  refine ⟨rfl, ?_, rfl, rfl, ?_, rfl⟩
  · exact List.length_take_le limit _
  · by_cases h : 1 ≤ n ∧ n ≤ limitCeiling
    · simp [validateLimit, h]
    · simp [validateLimit, h]

/-- Claim C9: a connector, city or q parameter supplied as the empty
string builds the same filter, and returns the same list, as omitting
the parameter, while min_power given as 0 still contributes its clause
unlike an absent min_power. -/
theorem empty_string_params_as_absent (conn : Option String) (m : Option ℚ)
    (city q : Option String) (dbc : Bool) (store : List Station)
    (limit : Nat) :
    buildFilter (some "") m city q = buildFilter none m city q
  ∧ buildFilter conn m (some "") q = buildFilter conn m none q
  ∧ buildFilter conn m city (some "") = buildFilter conn m city none
  ∧ list_stations dbc store (some "") m city q limit
      = list_stations dbc store none m city q limit
  ∧ list_stations dbc store conn m (some "") q limit
      = list_stations dbc store conn m none q limit
  ∧ list_stations dbc store conn m city (some "") limit
      = list_stations dbc store conn m city none limit
  ∧ (buildFilter conn (some 0) city q).power_gte = some 0
  ∧ (buildFilter conn none city q).power_gte = none :=
  ⟨rfl, rfl, rfl, rfl, rfl, rfl, rfl, rfl⟩

/-- Claim C10: the rectangle filter constrains the raw coordinates
only, with no wrap-around at the antimeridian: a record matches exactly
when its raw latitude and longitude lie in the two closed intervals,
and a station 0.2 degrees across the 180 degree seam from a center at
longitude 179.9 — about 22.2 km away at the equator by the 111 km per
degree scale the code itself uses, inside the 25 km radius — is not
matched. -/
theorem no_antimeridian_wrap :
    (∀ (lat lng radius_km : ℝ) (st : Station),
      matchesGeo (nearFilter lat lng radius_km) st ↔
        (lat - lat_delta radius_km ≤ st.latitude ∧
         st.latitude ≤ lat + lat_delta radius_km ∧
         lng - lng_delta lat radius_km ≤ st.longitude ∧
         st.longitude ≤ lng + lng_delta lat radius_km))
  ∧ (360 - (179.9 - (-179.9 : ℝ))) * 111 < 25
  ∧ ¬ matchesGeo (nearFilter 0 179.9 25) seamStation := by
  refine ⟨fun lat lng radius_km st => Iff.rfl, by norm_num, ?_⟩
  intro h
  obtain ⟨-, -, h3, -⟩ := h
  have h0 : ((0 : ℝ) * Real.pi / 180) = 0 := by ring
  have hd : lngDenom 0 = 111 := by
    unfold lngDenom
    rw [h0, Real.cos_zero, abs_one,
      max_eq_right (by norm_num : (0.01 : ℝ) ≤ 1)]
    norm_num
  have hlng : lng_delta 0 25 = 25 / 111 := by
    unfold lng_delta; rw [hd]
  have h3' : (179.9 : ℝ) - 25 / 111 ≤ -179.9 := by
    rw [show (nearFilter 0 179.9 25).lngMin = 179.9 - lng_delta 0 25 from rfl,
      hlng] at h3
    exact h3
  norm_num at h3'

end EVChargingMap
